import Mathlib

set_option maxRecDepth 8192

/-!
Verification development for the GCP AI image generator service (`main.py`).

The file shallowly embeds the program's core logic:

* `retry_call` — the exponential-backoff retry wrapper (main.py lines 69-102);
* the compositing transform `composite_images` (lines 161-172) over an
  explicit raster-image model;
* the request orchestrator route `generate_image` (lines 195-242), with the
  remote collaborators (Gemini, Imagen, packshot HTTP fetch, GCS upload)
  modelled as oracles supplying each call's outcome.

Python exceptions are modelled by the closed error type `Err`; fallible code
returns `Except Err`.  Sleep durations are modelled exactly over `ℚ`.  The
compositor's aspect-ratio arithmetic, where the source's binary floating
point is observable in the result, is modelled by an exact embedding of
IEEE 754 binary64 round-to-nearest-even over integer significand/exponent
pairs (`roundRatF64`, `mulF64`, `truncF64`).
-/

/-- Exception classes relevant to `main.py`, as a closed error type.
`serviceUnavailable` is `google.api_core.exceptions.ServiceUnavailable`
(a `GoogleAPICallError` whose HTTP code is 503) carrying its payload string;
`apiCallError` is any other `GoogleAPICallError`, carrying its HTTP status
code; `valueError` is Python's `ValueError`; `indexError` is Python's
`IndexError` (raised by `images[0]` on an empty list); `otherExc` is any
other exception. -/
inductive Err where
  | serviceUnavailable (payload : String)
  | apiCallError (code : Nat) (msg : String)
  | valueError (msg : String)
  | indexError (msg : String)
  | otherExc (msg : String)
  deriving DecidableEq

/-- One iteration of the `for attempt in range(1, max_attempts + 1)` loop of
`retry_call` (main.py lines 91-102); `fuel` is the number of loop iterations
still available (`max_attempts - attempt + 1` at every reachable call).  The
random factor `random.uniform(-jitter, jitter)` drawn on attempt `a` is
modelled by the ambient sequence `u a`; theorems constrain its range.  The
returned triple is (result, sleep durations performed, number of
invocations of `fn`); the result is `none` when the loop range is exhausted
without returning — Python then falls off the function and returns `None`. -/
def retryCallGo (fn : Nat → Except Err α) (u : Nat → ℚ) (baseDelay : ℚ)
    (maxAttempts : Nat) : Nat → Nat → Option (Except Err α) × List ℚ × Nat
  | _, 0 => (none, [], 0)
  | attempt, fuel + 1 =>
    match fn attempt with
    | .ok v => (some (.ok v), [], 1)
    | .error (.serviceUnavailable p) =>
      if attempt = maxAttempts then
        (some (.error (.serviceUnavailable p)), [], 1)
      else
        let sleepTime := baseDelay * 2 ^ (attempt - 1) * (1 + u attempt)
        let rest := retryCallGo fn u baseDelay maxAttempts (attempt + 1) fuel
        (rest.1, sleepTime :: rest.2.1, rest.2.2 + 1)
    | .error e => (some (.error e), [], 1)

/-- `retry_call(fn, max_attempts, base_delay, jitter)` from main.py lines
69-102.  The loop starts at attempt 1 with `maxAttempts` iterations
available. -/
def retry_call (fn : Nat → Except Err α) (u : Nat → ℚ) (baseDelay : ℚ)
    (maxAttempts : Nat) : Option (Except Err α) × List ℚ × Nat :=
  retryCallGo fn u baseDelay maxAttempts 1 maxAttempts

/-- An operation that raises `ServiceUnavailable` with payload `p` on the
first `k` attempts and then returns `v`. -/
def opFailThenOk (p : String) (v : α) (k : Nat) : Nat → Except Err α :=
  fun i => if i ≤ k then .error (.serviceUnavailable p) else .ok v

/-- An operation that raises `ServiceUnavailable` with payload `p` on every
attempt. -/
def opAlwaysFail (α : Type) (p : String) : Nat → Except Err α :=
  fun _ => .error (.serviceUnavailable p)

lemma retryCallGo_ok_step (fn : Nat → Except Err α) (u : Nat → ℚ) (b : ℚ)
    (m a f : Nat) (v : α) (hfa : fn a = .ok v) :
    retryCallGo fn u b m a (f + 1) = (some (.ok v), [], 1) := by
  simp [retryCallGo, hfa]

lemma retryCallGo_su_last (fn : Nat → Except Err α) (u : Nat → ℚ) (b : ℚ)
    (m a f : Nat) (p : String)
    (hfa : fn a = .error (.serviceUnavailable p)) (h : a = m) :
    retryCallGo fn u b m a (f + 1) =
      (some (.error (.serviceUnavailable p)), [], 1) := by
  subst h
  simp [retryCallGo, hfa]

lemma retryCallGo_su_retry (fn : Nat → Except Err α) (u : Nat → ℚ) (b : ℚ)
    (m a f : Nat) (p : String)
    (hfa : fn a = .error (.serviceUnavailable p)) (h : a ≠ m) :
    retryCallGo fn u b m a (f + 1) =
      ((retryCallGo fn u b m (a + 1) f).1,
       b * 2 ^ (a - 1) * (1 + u a) :: (retryCallGo fn u b m (a + 1) f).2.1,
       (retryCallGo fn u b m (a + 1) f).2.2 + 1) := by
  simp only [retryCallGo, hfa, if_neg h]

lemma retryCallGo_other_step (fn : Nat → Except Err α) (u : Nat → ℚ) (b : ℚ)
    (m a f : Nat) (e : Err) (he : ∀ p, e ≠ .serviceUnavailable p)
    (hfa : fn a = .error e) :
    retryCallGo fn u b m a (f + 1) = (some (.error e), [], 1) := by
  cases e
  case serviceUnavailable p => exact absurd rfl (he p)
  all_goals simp [retryCallGo, hfa]

lemma retryCallGo_ok (fn : Nat → Except Err α) (u : Nat → ℚ) (b : ℚ)
    (m : Nat) (p : String) (v : α) :
    ∀ (t a : Nat), 1 ≤ a → a + t ≤ m →
    (∀ j, a ≤ j → j < a + t → fn j = .error (.serviceUnavailable p)) →
    fn (a + t) = .ok v →
    retryCallGo fn u b m a (m - a + 1) =
      (some (.ok v),
       (List.range t).map (fun i => b * 2 ^ (a + i - 1) * (1 + u (a + i))),
       t + 1) := by
  intro t
  induction t with
  | zero =>
    intro a ha ham hfail hok
    simp only [Nat.add_zero] at hok
    rw [retryCallGo_ok_step fn u b m a (m - a) v hok]
    simp
  | succ t ih =>
    intro a ha ham hfail hok
    have hne : a ≠ m := by omega
    have hfa : fn a = .error (.serviceUnavailable p) := hfail a le_rfl (by omega)
    have hrec : retryCallGo fn u b m (a + 1) (m - (a + 1) + 1) =
        (some (.ok v),
         (List.range t).map (fun i => b * 2 ^ (a + 1 + i - 1) * (1 + u (a + 1 + i))),
         t + 1) := by
      apply ih (a + 1) (by omega) (by omega)
      · intro j hj1 hj2
        exact hfail j (by omega) (by omega)
      · have h2 : a + 1 + t = a + (t + 1) := by omega
        rw [h2, hok]
    have hfuel : m - a + 1 = (m - (a + 1) + 1) + 1 := by omega
    rw [hfuel, retryCallGo_su_retry fn u b m a (m - (a + 1) + 1) p hfa hne, hrec]
    simp only [List.range_succ_eq_map, List.map_cons, List.map_map]
    refine Prod.ext ?_ (Prod.ext ?_ ?_) <;> simp
    intro i _
    left
    congr 1
    omega

lemma retryCallGo_exhaust (α : Type) (u : Nat → ℚ) (b : ℚ) (m : Nat) (p : String) :
    ∀ (t a : Nat), 1 ≤ a → a + t = m →
    retryCallGo (opAlwaysFail α p) u b m a (m - a + 1) =
      (some (.error (.serviceUnavailable p)),
       (List.range t).map (fun i => b * 2 ^ (a + i - 1) * (1 + u (a + i))),
       t + 1) := by
  intro t
  induction t with
  | zero =>
    intro a ha ham
    have h : a = m := by omega
    rw [retryCallGo_su_last (opAlwaysFail α p) u b m a (m - a) p rfl h]
    simp
  | succ t ih =>
    intro a ha ham
    have hne : a ≠ m := by omega
    have hrec := ih (a + 1) (by omega) (by omega)
    have hfuel : m - a + 1 = (m - (a + 1) + 1) + 1 := by omega
    rw [hfuel, retryCallGo_su_retry (opAlwaysFail α p) u b m a (m - (a + 1) + 1) p rfl hne, hrec]
    simp only [List.range_succ_eq_map, List.map_cons, List.map_map]
    refine Prod.ext ?_ (Prod.ext ?_ ?_) <;> simp
    intro i _
    left
    congr 1
    omega

/-- C1: an operation that raises ServiceUnavailable exactly k times with
k < maxAttempts and then succeeds makes `retry_call` return the success
value after exactly k sleeps, the i-th sleep lying in
[baseDelay * 2^(i-1) * (1-jitter), baseDelay * 2^(i-1) * (1+jitter)];
an operation that raises ServiceUnavailable on every call is invoked
exactly maxAttempts times and the same error (payload preserved) is
raised.  (The maxAttempts = 0 edge case is claim C10.) -/
theorem retry_call_transient_policy {α : Type} (p : String) (v : α)
    (u : Nat → ℚ) (baseDelay jitter : ℚ) (maxAttempts k : Nat)
    (hbase : 0 ≤ baseDelay)
    (hu : ∀ i, -jitter ≤ u i ∧ u i ≤ jitter)
    (hm : 0 < maxAttempts) (hk : k < maxAttempts) :
    retry_call (opFailThenOk p v k) u baseDelay maxAttempts =
      (some (.ok v),
       (List.range k).map (fun i => baseDelay * 2 ^ i * (1 + u (i + 1))),
       k + 1) ∧
    (∀ i, i < k →
       baseDelay * 2 ^ i * (1 - jitter) ≤ baseDelay * 2 ^ i * (1 + u (i + 1)) ∧
       baseDelay * 2 ^ i * (1 + u (i + 1)) ≤ baseDelay * 2 ^ i * (1 + jitter)) ∧
    retry_call (opAlwaysFail α p) u baseDelay maxAttempts =
      (some (.error (.serviceUnavailable p)),
       (List.range (maxAttempts - 1)).map (fun i => baseDelay * 2 ^ i * (1 + u (i + 1))),
       maxAttempts) := by
  have hm1 : 1 ≤ maxAttempts := hm
  refine ⟨?_, ?_, ?_⟩
  · have h := retryCallGo_ok (opFailThenOk p v k) u baseDelay maxAttempts p v k 1
      le_rfl (by omega)
      (by
        intro j hj1 hj2
        simp only [opFailThenOk]
        rw [if_pos (by omega)])
      (by
        simp only [opFailThenOk]
        rw [if_neg (by omega)])
    rw [Nat.sub_add_cancel hm1] at h
    unfold retry_call
    rw [h]
    refine Prod.ext rfl (Prod.ext ?_ rfl)
    apply List.map_congr_left
    intro i _
    have h1 : 1 + i - 1 = i := by omega
    have h2 : 1 + i = i + 1 := by omega
    rw [h1, h2]
  · intro i _
    obtain ⟨hl, hr⟩ := hu (i + 1)
    have hnn : (0:ℚ) ≤ baseDelay * 2 ^ i := by positivity
    exact ⟨mul_le_mul_of_nonneg_left (by linarith) hnn,
           mul_le_mul_of_nonneg_left (by linarith) hnn⟩
  · have h := retryCallGo_exhaust α u baseDelay maxAttempts p (maxAttempts - 1) 1
      le_rfl (by omega)
    rw [Nat.sub_add_cancel hm1] at h
    unfold retry_call
    rw [h]
    refine Prod.ext rfl (Prod.ext ?_ ?_)
    · apply List.map_congr_left
      intro i _
      have h1 : 1 + i - 1 = i := by omega
      have h2 : 1 + i = i + 1 := by omega
      rw [h1, h2]
    · rfl

theorem retry_call_transient_policy_witness :
    (0:ℚ) ≤ 3 / 2 ∧ 2 < 5 ∧
    retry_call (opFailThenOk "503 Service Unavailable" (7:Nat) 2) (fun _ => 0) (3 / 2) 5 =
      (some (.ok 7), [3 / 2, 3], 3) := by
  refine ⟨by norm_num, by norm_num, ?_⟩
  have h := (retry_call_transient_policy "503 Service Unavailable" (7:Nat) (fun _ => 0)
    (3 / 2) (1 / 5) 5 2 (by norm_num) (fun i => by norm_num) (by norm_num) (by norm_num)).1
  rw [h]
  norm_num [List.range_succ]

/-- C8: an operation that raises an error other than ServiceUnavailable is
invoked exactly once by `retry_call`; the error propagates immediately with
no sleep and no retry. -/
theorem retry_call_nontransient_single (fn : Nat → Except Err α) (u : Nat → ℚ)
    (baseDelay : ℚ) (maxAttempts : Nat) (hm : 0 < maxAttempts)
    (e : Err) (he : ∀ p, e ≠ .serviceUnavailable p)
    (hfn : fn 1 = .error e) :
    retry_call fn u baseDelay maxAttempts = (some (.error e), [], 1) := by
  obtain ⟨f, rfl⟩ : ∃ f, maxAttempts = f + 1 := ⟨maxAttempts - 1, by omega⟩
  exact retryCallGo_other_step fn u baseDelay (f + 1) 1 f e he hfn

theorem retry_call_nontransient_single_witness :
    0 < 5 ∧
    retry_call (fun _ => (.error (Err.valueError "bad") : Except Err Nat)) (fun _ => 0) (3 / 2) 5 =
      (some (.error (Err.valueError "bad")), [], 1) :=
  ⟨by norm_num,
   retry_call_nontransient_single _ _ _ 5 (by norm_num) _ (fun p => by simp) rfl⟩

/-- C10: for max_attempts ≤ 0 the loop body never runs, so `retry_call`
falls off the end of the function and returns Python's None (modelled as
`none`, outside the declared return type R) without ever invoking the
operation and without sleeping. -/
theorem retry_call_zero_max_attempts (fn : Nat → Except Err α) (u : Nat → ℚ)
    (baseDelay : ℚ) (maxAttempts : Nat) (hm : maxAttempts ≤ 0) :
    retry_call fn u baseDelay maxAttempts = (none, [], 0) := by
  have h0 : maxAttempts = 0 := by omega
  subst h0
  rfl

theorem retry_call_zero_max_attempts_witness :
    0 ≤ 0 ∧
    retry_call (fun _ => (.ok 7 : Except Err Nat)) (fun _ => 0) (3 / 2) 0 = (none, [], 0) :=
  ⟨le_rfl, retry_call_zero_max_attempts _ _ _ 0 le_rfl⟩

/-- An RGBA pixel with channel values in 0..255. -/
@[ext]
structure Pixel where
  r : Nat
  g : Nat
  b : Nat
  a : Nat
  deriving DecidableEq

/-- A Pillow raster image: width, height and a pixel function. -/
structure Image where
  width : Nat
  height : Nat
  pix : Nat → Nat → Pixel

/-- Modelled from the spec: the per-channel alpha blend of the Pillow
collaborator's `Image.paste` with an RGBA mask ("using the packshot's own
alpha channel as the blend mask so transparent packshot regions leave the
background untouched").  Exact at the endpoints: alpha 0 keeps the
background channel `c1`, alpha 255 takes the pasted channel `c2`. -/
def blendChannel (alpha c1 c2 : Nat) : Nat :=
  (c1 * (255 - alpha) + c2 * alpha) / 255

/-- Modelled from the spec: `base.paste(src, (px, py), src)` of the Pillow
collaborator — pixels of `base` inside the pasted box are blended with
`src` using `src`'s alpha channel as the mask; pixels outside it are
untouched (Pillow clips the box to `base`). -/
def pasteMask (base src : Image) (px py : Int) : Image where
  width := base.width
  height := base.height
  pix := fun x y =>
    if px ≤ (x : Int) ∧ (x : Int) < px + src.width ∧
       py ≤ (y : Int) ∧ (y : Int) < py + src.height then
      let sp := src.pix ((x : Int) - px).toNat ((y : Int) - py).toNat
      let bp := base.pix x y
      ⟨blendChannel sp.a bp.r sp.r, blendChannel sp.a bp.g sp.g,
       blendChannel sp.a bp.b sp.b, blendChannel sp.a bp.a sp.a⟩
    else base.pix x y

/-- Normalisation step of binary64 rounding: scale the positive fraction
`n / d` by powers of two (tracked in `e`) until `n / d ∈ [2^52, 2^53)`.
The fuel 1200 covers the entire finite-double exponent range; the loop
exits as soon as the window is reached. -/
def scaleToNormal : Nat → Nat → Nat → Int → Nat × Nat × Int
  | 0, n, d, e => (n, d, e)
  | fuel + 1, n, d, e =>
    if n < 2 ^ 52 * d then scaleToNormal fuel (2 * n) d (e - 1)
    else if 2 ^ 53 * d ≤ n then scaleToNormal fuel n (2 * d) (e + 1)
    else (n, d, e)

/-- IEEE 754 binary64 round-to-nearest-even of the positive fraction
`n / d`, returned as (significand, exponent) with value
significand * 2^exponent.  This is the double CPython produces for the
int/int true division `n / d` (and, via `mulF64`, for float products);
sub-normals and overflow lie outside the magnitudes this program can
reach and are not modelled. -/
def roundRatF64 (n d : Nat) : Nat × Int :=
  let s := scaleToNormal 1200 n d 0
  let m0 := s.1 / s.2.1
  let r := s.1 % s.2.1
  let m :=
    if s.2.1 < 2 * r then m0 + 1
    else if 2 * r < s.2.1 then m0
    else if m0 % 2 = 0 then m0 else m0 + 1
  (m, s.2.2)

/-- The binary64 product of the integer `a` (exactly representable, as all
dimensions here are far below 2^53) with the double `m * 2^e`: the exact
product, rounded once to nearest-even, as IEEE multiplication does. -/
def mulF64 (a : Nat) (m : Nat) (e : Int) : Nat × Int :=
  if 0 ≤ e then roundRatF64 (a * m * 2 ^ e.toNat) 1
  else roundRatF64 (a * m) (2 ^ (-e).toNat)

/-- Python's `int()` truncation of the nonnegative double `m * 2^e`. -/
def truncF64 (m : Nat) (e : Int) : Nat :=
  if 0 ≤ e then m * 2 ^ e.toNat else m / 2 ^ (-e).toNat

/-- `composite_images(bg, packshot)` (main.py lines 161-172).  `resample`
models Pillow's `Image.resize` with the LANCZOS filter; theorems assume of
it only that the result has the requested dimensions.
`aspect = packshot.height / packshot.width` and `new_w * aspect` are
binary64 computations (`roundRatF64`, `mulF64`), whose `int()` truncation
(`truncF64`) can differ from the exact floor of `new_w * ph / pw`.
`int(bg_w * 0.45)` is embedded as exact `Nat` floor division: `0.45`
rounds to a double a hair above 45/100, and the product's error (below
`w * 10^-16`) cannot bridge the gap of at least 1/20 to the next integer
(nor reach back below an exact multiple of 9/20), so the truncation agrees
with `w * 45 / 100` for every realistic width.  The offsets' `//` is floor
division, which Lean's `/` on `Int` matches for the positive divisor 2. -/
def composite_images (resample : Image → Nat → Nat → Image)
    (bg packshot : Image) : Image :=
  let aspect := roundRatF64 packshot.height packshot.width
  let new_w := bg.width * 45 / 100
  let prod := mulF64 new_w aspect.1 aspect.2
  let new_h := truncF64 prod.1 prod.2
  let packshot_resized := resample packshot new_w new_h
  let paste_x := ((bg.width : Int) - new_w) / 2
  let paste_y := ((bg.height : Int) - new_h) / 2
  pasteMask bg packshot_resized paste_x paste_y

/-- The call-site effect of `composite_images` (main.py lines 171-172):
`bg.paste(...)` mutates the caller's background buffer in place and
`return bg` returns that same object.  The pair is (returned image, final
content of the caller's `bg` buffer); no copy of the background is made, so
both components are the pasted image. -/
def composite_images_state (resample : Image → Nat → Nat → Image)
    (bg packshot : Image) : Image × Image :=
  (composite_images resample bg packshot, composite_images resample bg packshot)

lemma blendChannel_zero (c1 c2 : Nat) : blendChannel 0 c1 c2 = c1 := by
  simp [blendChannel]

lemma blendChannel_full (c1 c2 : Nat) : blendChannel 255 c1 c2 = c2 := by
  simp [blendChannel]

lemma truncF64_eq_floor (m : Nat) (e : Int) :
    truncF64 m e = ⌊(m : ℚ) * (2 : ℚ) ^ e⌋₊ := by
  unfold truncF64
  by_cases h : 0 ≤ e
  · rw [if_pos h]
    have h2 : (2 : ℚ) ^ e = ((2 ^ e.toNat : Nat) : ℚ) := by
      rw [Nat.cast_pow, Nat.cast_ofNat, ← zpow_natCast]
      congr 1
      omega
    rw [h2, ← Nat.cast_mul, Nat.floor_natCast]
  · rw [if_neg h]
    have h2 : (2 : ℚ) ^ e = (((2 ^ (-e).toNat : Nat) : ℚ))⁻¹ := by
      rw [Nat.cast_pow, Nat.cast_ofNat, ← zpow_natCast, ← zpow_neg]
      congr 1
      omega
    rw [h2, ← div_eq_mul_inv, Nat.floor_div_nat, Nat.floor_natCast]

def cexResample : Image → Nat → Nat → Image := fun img w h => ⟨w, h, img.pix⟩

def cex4Bg : Image := ⟨256, 256, fun _ _ => ⟨0, 100, 0, 255⟩⟩

def cex4Packshot : Image := ⟨5, 41, fun _ y => ⟨y % 256, 0, 0, 255⟩⟩

/-- C4 counterexample: the claimed resized height floor(floor(W*0.45) * (ph/pw))
is false of the program.  For a 256x256 background and a 5x41 packshot the
source computes `int(115 * (41/5))` in binary64: `41/5` is the double
8.1999999999999993 (significand 4616189618054758, exponent -49), so
`115 * 8.2` evaluates to 942.9999999999999 and `int()` gives 942, while the
exact formula gives floor(115 * 41/5) = floor(943) = 943; consequently the
composited image differs at pixel (70, 0) from the one the claimed
height (and the pasteY derived from it) would produce. -/
theorem composite_height_float_cex :
    truncF64 (mulF64 115 (roundRatF64 41 5).1 (roundRatF64 41 5).2).1
        (mulF64 115 (roundRatF64 41 5).1 (roundRatF64 41 5).2).2 = 942 ∧
    ⌊(115 : ℚ) * ((41 : ℚ) / 5)⌋₊ = 943 ∧
    composite_images cexResample cex4Bg cex4Packshot ≠
      pasteMask cex4Bg (cexResample cex4Packshot 115 943) (((256 : Int) - 115) / 2)
        (((256 : Int) - 943) / 2) := by
  refine ⟨by decide, ?_, ?_⟩
  · rw [show (115 : ℚ) * ((41 : ℚ) / 5) = ((115 * 41 : Nat) : ℚ) / ((5 : Nat) : ℚ) by
        push_cast
        ring,
      Nat.floor_div_nat, Nat.floor_natCast]
  · intro h
    have hfun := congrArg (fun im => Image.pix im 70 0) h
    have hne : (composite_images cexResample cex4Bg cex4Packshot).pix 70 0 ≠
        (pasteMask cex4Bg (cexResample cex4Packshot 115 943) (((256 : Int) - 115) / 2)
          (((256 : Int) - 943) / 2)).pix 70 0 := by
      decide
    exact hne hfun

/-- C4 (amended): for a background of width W, height H (both positive) and
a packshot of positive width, `composite_images` resizes the packshot to
width floor(W * 0.45) and to the height the source's floating point
produces — `int` of the binary64 evaluation of newWidth * (ph/pw), i.e.
the real floor of the once-rounded double product, which can be one less
than the exact floor(newWidth * ph/pw) — and pastes it at offsets
pasteX = floor((W - newWidth)/2), pasteY = floor((H - newHeight)/2), which
center it to within one pixel of rounding. -/
theorem composite_geometry (resample : Image → Nat → Nat → Image)
    (bg packshot : Image) (hpw : 0 < packshot.width)
    (hres : ∀ img w h, (resample img w h).width = w ∧ (resample img w h).height = h)
    (newW newH : Nat) (pX pY : Int) (aspect prod : Nat × Int)
    (hnewW : newW = ⌊(bg.width : ℚ) * (45 / 100)⌋₊)
    (haspect : aspect = roundRatF64 packshot.height packshot.width)
    (hprod : prod = mulF64 newW aspect.1 aspect.2)
    (hnewH : newH = truncF64 prod.1 prod.2)
    (hpX : pX = ((bg.width : Int) - newW) / 2)
    (hpY : pY = ((bg.height : Int) - newH) / 2) :
    composite_images resample bg packshot =
      pasteMask bg (resample packshot newW newH) pX pY ∧
    newH = ⌊(prod.1 : ℚ) * (2 : ℚ) ^ prod.2⌋₊ ∧
    (resample packshot newW newH).width = newW ∧
    (resample packshot newW newH).height = newH ∧
    0 ≤ (bg.width : Int) - newW - 2 * pX ∧ (bg.width : Int) - newW - 2 * pX ≤ 1 ∧
    0 ≤ (bg.height : Int) - newH - 2 * pY ∧ (bg.height : Int) - newH - 2 * pY ≤ 1 := by
  have e1 : newW = bg.width * 45 / 100 := by
    rw [hnewW]
    have : (bg.width : ℚ) * (45 / 100) = ((bg.width * 45 : Nat) : ℚ) / ((100 : Nat) : ℚ) := by
      push_cast
      ring
    rw [this, Nat.floor_div_nat, Nat.floor_natCast]
  have hWle : newW ≤ bg.width := by
    rw [e1]
    omega
  refine ⟨?_, ?_, (hres packshot newW newH).1, (hres packshot newW newH).2, ?_, ?_, ?_, ?_⟩
  · rw [hpX, hpY, hnewH, hprod, haspect, e1]
    rfl
  · rw [hnewH, truncF64_eq_floor]
  · rw [hpX]
    omega
  · rw [hpX]
    omega
  · rw [hpY]
    omega
  · rw [hpY]
    omega

def wResample : Image → Nat → Nat → Image := fun img w h => ⟨w, h, img.pix⟩

def wBg : Image := ⟨1024, 1024, fun _ _ => ⟨10, 20, 30, 255⟩⟩

def wPackshot : Image := ⟨400, 800, fun _ _ => ⟨1, 2, 3, 255⟩⟩

theorem composite_geometry_witness :
    0 < wPackshot.width ∧
    (composite_images wResample wBg wPackshot =
       pasteMask wBg (wResample wPackshot 460 920) 282 52 ∧
     920 = ⌊((920 * 2 ^ 43 : Nat) : ℚ) * (2 : ℚ) ^ (-43 : Int)⌋₊ ∧
     (wResample wPackshot 460 920).width = 460 ∧
     (wResample wPackshot 460 920).height = 920 ∧
     0 ≤ (wBg.width : Int) - 460 - 2 * 282 ∧ (wBg.width : Int) - 460 - 2 * 282 ≤ 1 ∧
     0 ≤ (wBg.height : Int) - 920 - 2 * 52 ∧ (wBg.height : Int) - 920 - 2 * 52 ≤ 1) := by
  refine ⟨by norm_num [wPackshot], ?_⟩
  exact composite_geometry wResample wBg wPackshot (by norm_num [wPackshot])
    (fun img w h => ⟨rfl, rfl⟩) 460 920 282 52 ((2 ^ 52 : Nat), (-51 : Int))
    ((920 * 2 ^ 43 : Nat), (-43 : Int))
    (by
      have : ((wBg.width : ℚ)) * (45 / 100) = 2304 / 5 := by norm_num [wBg]
      rw [this]
      symm
      rw [Nat.floor_eq_iff (by norm_num)]
      norm_num)
    (by decide)
    (by decide)
    (by decide)
    (by norm_num [wBg])
    (by norm_num [wBg])

/-- C6 (amended): `composite_images` mutates the passed-in background
buffer in place and returns that same buffer (no copy is made); within the
result, a background pixel under a zero-alpha pixel of the pasted
(resized) packshot is unchanged, one under a full-alpha packshot pixel is
replaced by the packshot pixel, and pixels outside the pasted box are
unchanged. -/
theorem composite_pixel_semantics (resample : Image → Nat → Nat → Image)
    (bg packshot : Image) (resized : Image) (newH : Nat) (pX pY : Int) (x y : Nat)
    (hnewH : newH = truncF64
        (mulF64 (bg.width * 45 / 100) (roundRatF64 packshot.height packshot.width).1
          (roundRatF64 packshot.height packshot.width).2).1
        (mulF64 (bg.width * 45 / 100) (roundRatF64 packshot.height packshot.width).1
          (roundRatF64 packshot.height packshot.width).2).2)
    (hrz : resized = resample packshot (bg.width * 45 / 100) newH)
    (hpX : pX = ((bg.width : Int) - (bg.width * 45 / 100 : Nat)) / 2)
    (hpY : pY = ((bg.height : Int) - newH) / 2) :
    (composite_images_state resample bg packshot).1 =
      (composite_images_state resample bg packshot).2 ∧
    (pX ≤ (x : Int) ∧ (x : Int) < pX + resized.width ∧
     pY ≤ (y : Int) ∧ (y : Int) < pY + resized.height →
     ((resized.pix ((x : Int) - pX).toNat ((y : Int) - pY).toNat).a = 0 →
        (composite_images_state resample bg packshot).1.pix x y = bg.pix x y) ∧
     ((resized.pix ((x : Int) - pX).toNat ((y : Int) - pY).toNat).a = 255 →
        (composite_images_state resample bg packshot).1.pix x y =
          resized.pix ((x : Int) - pX).toNat ((y : Int) - pY).toNat)) ∧
    (¬ (pX ≤ (x : Int) ∧ (x : Int) < pX + resized.width ∧
        pY ≤ (y : Int) ∧ (y : Int) < pY + resized.height) →
     (composite_images_state resample bg packshot).1.pix x y = bg.pix x y) := by
  subst hnewH
  subst hrz hpX hpY
  refine ⟨rfl, ?_, ?_⟩
  · intro hin
    constructor
    · intro ha
      simp only [composite_images_state, composite_images, pasteMask]
      rw [if_pos hin, ha]
      simp [blendChannel_zero]
    · intro ha
      simp only [composite_images_state, composite_images, pasteMask]
      rw [if_pos hin, ha, blendChannel_full, blendChannel_full, blendChannel_full,
        blendChannel_full, ← ha]
  · intro hout
    simp only [composite_images_state, composite_images, pasteMask]
    rw [if_neg hout]

def cexBg : Image := ⟨10, 10, fun _ _ => ⟨200, 0, 0, 255⟩⟩

def cexPackshot : Image := ⟨1, 1, fun _ _ => ⟨0, 0, 250, 255⟩⟩

/-- C6 counterexample: `composite_images` does NOT paste onto a copy of the
background — `bg.paste(...)` (main.py line 171) mutates the caller's
background buffer in place, so after the call the original background
buffer differs from the background that was passed in (here at pixel
(3,3), covered by an opaque packshot pixel). -/
theorem composite_no_copy_cex :
    (composite_images_state cexResample cexBg cexPackshot).2 ≠ cexBg := by
  intro h
  have hfun : (composite_images_state cexResample cexBg cexPackshot).2.pix 3 3 =
      cexBg.pix 3 3 := by
    rw [h]
  have hne : (composite_images_state cexResample cexBg cexPackshot).2.pix 3 3 ≠
      cexBg.pix 3 3 := by
    decide
  exact hne hfun

theorem composite_pixel_semantics_witness :
    (composite_images_state cexResample cexBg cexPackshot).1 =
      (composite_images_state cexResample cexBg cexPackshot).2 ∧
    ((3 : Int) ≤ (3 : Nat) ∧ ((3 : Nat) : Int) < 3 + (cexResample cexPackshot 4 4).width ∧
     (3 : Int) ≤ (3 : Nat) ∧ ((3 : Nat) : Int) < 3 + (cexResample cexPackshot 4 4).height →
     (((cexResample cexPackshot 4 4).pix (((3 : Nat) : Int) - 3).toNat
         (((3 : Nat) : Int) - 3).toNat).a = 0 →
        (composite_images_state cexResample cexBg cexPackshot).1.pix 3 3 =
          cexBg.pix 3 3) ∧
     (((cexResample cexPackshot 4 4).pix (((3 : Nat) : Int) - 3).toNat
         (((3 : Nat) : Int) - 3).toNat).a = 255 →
        (composite_images_state cexResample cexBg cexPackshot).1.pix 3 3 =
          (cexResample cexPackshot 4 4).pix (((3 : Nat) : Int) - 3).toNat
            (((3 : Nat) : Int) - 3).toNat)) ∧
    (¬ ((3 : Int) ≤ (3 : Nat) ∧ ((3 : Nat) : Int) < 3 + (cexResample cexPackshot 4 4).width ∧
        (3 : Int) ≤ (3 : Nat) ∧ ((3 : Nat) : Int) < 3 + (cexResample cexPackshot 4 4).height) →
     (composite_images_state cexResample cexBg cexPackshot).1.pix 3 3 = cexBg.pix 3 3) :=
  composite_pixel_semantics cexResample cexBg cexPackshot
    (cexResample cexPackshot 4 4) 4 3 3 3 3 (by decide) rfl rfl rfl

/-- Python's `<` on characters: comparison of Unicode code points. -/
def charLtb (c d : Char) : Bool := c.val < d.val

/-- Python's `<` on strings: lexicographic comparison by code point. -/
def strLtb : List Char → List Char → Bool
  | [], [] => false
  | [], _ :: _ => true
  | _ :: _, [] => false
  | c :: cs, d :: ds =>
    if charLtb c d then true else if charLtb d c then false else strLtb cs ds

def strLt (s t : String) : Bool := strLtb s.data t.data

/-- Insertion step of an insertion sort modelling Python's `sorted` on
strings. -/
def insertStr (s : String) : List String → List String
  | [] => [s]
  | t :: ts => if strLt t s then t :: insertStr s ts else s :: t :: ts

/-- Python's `sorted` on a list of strings. -/
def sortStrs : List String → List String
  | [] => []
  | s :: ss => insertStr s (sortStrs ss)

/-- `REQUIRED_FIELDS` (main.py line 192); the Python set is modelled as the
list of its elements in the literal's order. -/
def REQUIRED_FIELDS : List String :=
  ["general_description", "background_description", "copy", "packshot_url"]

/-- `REQUIRED_FIELDS - payload.keys()` (main.py line 201): the required
field names absent from the request body's keys. -/
def missingFields (keys : List String) : List String :=
  REQUIRED_FIELDS.filter (fun f => !(keys.contains f))

/-- An HTTP response of the route: either the 200 success body
`{success, imageUrl, geminiGeneratedPrompt}` or an error body
`{error, details?}` with its status code. -/
inductive Resp where
  | success (imageUrl : String) (geminiGeneratedPrompt : String)
  | failure (status : Nat) (errMsg : String) (details : Option String)
  deriving DecidableEq

/-- The HTTP status of a response (a success is returned with 200). -/
def Resp.status : Resp → Nat
  | .success _ _ => 200
  | .failure s _ _ => s

/-- The route's exception handlers (main.py lines 225-242): any
`GoogleAPICallError` yields its own HTTP code (`exc.code.value`;
`ServiceUnavailable` has code 503) with body "Vertex AI service error."
plus details; a `ValueError` yields 400 with the exception text and no
details; any other exception yields 500 with body "Internal server error."
plus details. -/
def mapException : Err → Resp
  | .serviceUnavailable p => .failure 503 "Vertex AI service error." (some p)
  | .apiCallError code msg => .failure code "Vertex AI service error." (some msg)
  | .valueError msg => .failure 400 msg none
  | .indexError msg => .failure 500 "Internal server error." (some msg)
  | .otherExc msg => .failure 500 "Internal server error." (some msg)

/-- `generate_gemini_prompt` (main.py lines 109-131):
`retry_call(GEMINI_MODEL.generate_content, meta_prompt)` followed by the
text post-processing.  The oracle `fn` gives each attempt's outcome, its
success value standing for the cleaned response text.  A `none` from
`retry_call` (possible only with zero attempts) leaves Python reading
`None.text`, an AttributeError, modelled as `otherExc`.  The pair is
(outcome, number of model invocations). -/
def generate_gemini_prompt (fn : Nat → Except Err String) (u : Nat → ℚ)
    (baseDelay : ℚ) (maxAttempts : Nat) : Except Err String × Nat :=
  let r := retry_call fn u baseDelay maxAttempts
  (match r.1 with
   | none => .error (.otherExc "NoneType object has no attribute text")
   | some x => x,
   r.2.2)

/-- `generate_imagen_background` (main.py lines 134-145): the retried
`IMAGEN_MODEL.generate_images` call followed by `images[0]`, which raises
`IndexError` when the model returned zero images.  The oracle `fn` gives
each attempt's returned image list.  The pair is (outcome, number of model
invocations). -/
def generate_imagen_background (fn : Nat → Except Err (List Image)) (u : Nat → ℚ)
    (baseDelay : ℚ) (maxAttempts : Nat) : Except Err Image × Nat :=
  let r := retry_call fn u baseDelay maxAttempts
  (match r.1 with
   | none => .error (.otherExc "NoneType object is not subscriptable")
   | some (.error e) => .error e
   | some (.ok []) => .error (.indexError "list index out of range")
   | some (.ok (img :: _)) => .ok img,
   r.2.2)

/-- `download_packshot` (main.py lines 148-158): a failed HTTP fetch
(`requests.RequestException`, carried by the oracle's error string) is
re-raised as `ValueError("Unable to download packshot")`; a success yields
the decoded RGBA image. -/
def download_packshot (fetch : Except String Image) : Except Err Image :=
  match fetch with
  | .error _ => .error (.valueError "Unable to download packshot")
  | .ok img => .ok img

/-- `upload_to_gcs` (main.py lines 175-185): the storage oracle `store`
gives the outcome of the single `blob.upload_from_file` call on the encoded
image; on success the blob's public URL is returned. -/
def upload_to_gcs (store : Image → Except Err String) (image : Image) :
    Except Err String :=
  store image

/-- How many times each remote collaborator was invoked while handling one
request. -/
structure Trace where
  geminiCalls : Nat
  imagenCalls : Nat
  fetchCalls : Nat
  uploadCalls : Nat
  deriving DecidableEq

/-- The route `generate_image` (main.py lines 195-242).  `payload` is the
parsed JSON body (`none` when `request.get_json(silent=True)` returns
None), a JSON object being a list of key/value pairs.  The remote
collaborators are oracles: `geminiFn` and `imagenFn` give each retried
attempt's outcome (with `uG`, `uI` the drawn jitter factors; the call sites
use the defaults max_attempts=5, base_delay=1.5), `fetch` the packshot
download's outcome and `store` the storage upload's outcome.  Python's
`if missing:` guard appears here as `if missing = [] then pipeline else
400-response`.  Returns the response together with the invocation trace. -/
def generate_image (payload : Option (List (String × String)))
    (geminiFn : Nat → Except Err String) (imagenFn : Nat → Except Err (List Image))
    (fetch : Except String Image) (store : Image → Except Err String)
    (uG uI : Nat → ℚ) (resample : Image → Nat → Nat → Image) : Resp × Trace :=
  match payload with
  | none => (.failure 400 "Invalid JSON payload" none, ⟨0, 0, 0, 0⟩)
  | some fields =>
    let missing := missingFields (fields.map Prod.fst)
    if missing = [] then
      let g := generate_gemini_prompt geminiFn uG (3 / 2) 5
      match g.1 with
      | .error e => (mapException e, ⟨g.2, 0, 0, 0⟩)
      | .ok prompt =>
        let b := generate_imagen_background imagenFn uI (3 / 2) 5
        match b.1 with
        | .error e => (mapException e, ⟨g.2, b.2, 0, 0⟩)
        | .ok bg_image =>
          match download_packshot fetch with
          | .error e => (mapException e, ⟨g.2, b.2, 1, 0⟩)
          | .ok packshot =>
            let final_image := composite_images resample bg_image packshot
            match upload_to_gcs store final_image with
            | .error e => (mapException e, ⟨g.2, b.2, 1, 1⟩)
            | .ok url => (.success url prompt, ⟨g.2, b.2, 1, 1⟩)
    else
      (.failure 400
        ("Missing required field(s): " ++ String.intercalate ", " (sortStrs missing))
        none,
       ⟨0, 0, 0, 0⟩)

lemma missingFields_eq_nil (keys : List String)
    (h1 : keys.contains "general_description" = true)
    (h2 : keys.contains "background_description" = true)
    (h3 : keys.contains "copy" = true)
    (h4 : keys.contains "packshot_url" = true) :
    missingFields keys = [] := by
  simp only [missingFields, REQUIRED_FIELDS, List.filter, h1, h2, h3, h4, Bool.not_true]

lemma retryCallGo_calls_pos (fn : Nat → Except Err α) (u : Nat → ℚ) (b : ℚ)
    (m a f : Nat) : 1 ≤ (retryCallGo fn u b m a (f + 1)).2.2 := by
  cases hfa : fn a with
  | ok v => rw [retryCallGo_ok_step fn u b m a f v hfa]
  | error e =>
    cases e with
    | serviceUnavailable p =>
      by_cases h : a = m
      · rw [retryCallGo_su_last fn u b m a f p hfa h]
      · rw [retryCallGo_su_retry fn u b m a f p hfa h]
        simp
    | apiCallError code msg =>
      rw [retryCallGo_other_step fn u b m a f _ (fun p => by simp) hfa]
    | valueError msg =>
      rw [retryCallGo_other_step fn u b m a f _ (fun p => by simp) hfa]
    | indexError msg =>
      rw [retryCallGo_other_step fn u b m a f _ (fun p => by simp) hfa]
    | otherExc msg =>
      rw [retryCallGo_other_step fn u b m a f _ (fun p => by simp) hfa]

lemma retry_call_calls_pos (fn : Nat → Except Err α) (u : Nat → ℚ) (b : ℚ)
    (m : Nat) (hm : 0 < m) : 1 ≤ (retry_call fn u b m).2.2 := by
  obtain ⟨f, rfl⟩ : ∃ f, m = f + 1 := ⟨m - 1, by omega⟩
  exact retryCallGo_calls_pos fn u b (f + 1) 1 f

/-- C3: removing any non-empty subset of the four required fields from an
otherwise complete request body yields a 400 response whose error message
names exactly the removed fields, sorted alphabetically and comma-joined,
before any pipeline stage runs. -/
theorem missing_fields_complete (sG sB sC sP : Bool)
    (hne : sG = true ∨ sB = true ∨ sC = true ∨ sP = true)
    (geminiFn : Nat → Except Err String) (imagenFn : Nat → Except Err (List Image))
    (fetch : Except String Image) (store : Image → Except Err String)
    (uG uI : Nat → ℚ) (resample : Image → Nat → Nat → Image) :
    generate_image
      (some ((if sG then [] else [("general_description", "a studio scene")]) ++
             (if sB then [] else [("background_description", "marble countertop")]) ++
             (if sC then [] else [("copy", "SALE 50%")]) ++
             (if sP then [] else [("packshot_url", "https://example.com/bottle.png")])))
      geminiFn imagenFn fetch store uG uI resample =
      (.failure 400
        ("Missing required field(s): " ++ String.intercalate ", "
          ((if sB then ["background_description"] else []) ++
           (if sC then ["copy"] else []) ++
           (if sG then ["general_description"] else []) ++
           (if sP then ["packshot_url"] else [])))
        none,
       ⟨0, 0, 0, 0⟩) := by
  cases sG <;> cases sB <;> cases sC <;> cases sP <;>
    first
    | rfl
    | simp at hne

theorem missing_fields_complete_witness :
    (true = true ∨ false = true ∨ false = true ∨ true = true) ∧
    generate_image
      (some [("background_description", "marble countertop"), ("copy", "SALE 50%")])
      (fun _ => .error (.otherExc "unused")) (fun _ => .error (.otherExc "unused"))
      (.error "unused") (fun _ => .error (.otherExc "unused"))
      (fun _ => 0) (fun _ => 0) wResample =
      (.failure 400 "Missing required field(s): general_description, packshot_url" none,
       ⟨0, 0, 0, 0⟩) := by
  constructor
  · left
    rfl
  · have h := missing_fields_complete true false false true (Or.inl rfl)
      (fun _ => .error (.otherExc "unused")) (fun _ => .error (.otherExc "unused"))
      (.error "unused") (fun _ => .error (.otherExc "unused"))
      (fun _ => 0) (fun _ => 0) wResample
    simpa using h

/-- C2: when the storage write fails with a storage-layer I/O error (an
exception outside the route's classified `GoogleAPICallError` and
`ValueError` handlers), the response status is 500 ("Internal server
error." with the exception text as details) and the write is attempted
exactly once — `upload_to_gcs` is not wrapped in `retry_call`. -/
theorem publish_failure_500 (fields : List (String × String))
    (geminiFn : Nat → Except Err String) (imagenFn : Nat → Except Err (List Image))
    (fetchedImg : Image) (store : Image → Except Err String)
    (uG uI : Nat → ℚ) (resample : Image → Nat → Nat → Image)
    (h1 : (fields.map Prod.fst).contains "general_description" = true)
    (h2 : (fields.map Prod.fst).contains "background_description" = true)
    (h3 : (fields.map Prod.fst).contains "copy" = true)
    (h4 : (fields.map Prod.fst).contains "packshot_url" = true)
    (prompt : String) (bgImg : Image) (msg : String)
    (hg : (generate_gemini_prompt geminiFn uG (3 / 2) 5).1 = .ok prompt)
    (hb : (generate_imagen_background imagenFn uI (3 / 2) 5).1 = .ok bgImg)
    (hst : ∀ img, store img = .error (.otherExc msg)) :
    generate_image (some fields) geminiFn imagenFn (.ok fetchedImg) store uG uI resample =
      (.failure 500 "Internal server error." (some msg),
       ⟨(generate_gemini_prompt geminiFn uG (3 / 2) 5).2,
        (generate_imagen_background imagenFn uI (3 / 2) 5).2, 1, 1⟩) := by
  simp only [generate_image, download_packshot, upload_to_gcs]
  rw [missingFields_eq_nil _ h1 h2 h3 h4, if_pos rfl, hg]
  dsimp only
  rw [hb]
  dsimp only
  rw [hst _]
  rfl

def wFields : List (String × String) :=
  [("general_description", "modern minimalist"),
   ("background_description", "marble countertop"),
   ("copy", "SALE 50%"),
   ("packshot_url", "https://example.com/bottle.png")]

theorem publish_failure_500_witness :
    (wFields.map Prod.fst).contains "copy" = true ∧
    generate_image (some wFields) (fun _ => .ok "a prompt") (fun _ => .ok [cexBg])
      (.ok cexPackshot) (fun _ => .error (.otherExc "storage write failed"))
      (fun _ => 0) (fun _ => 0) cexResample =
      (.failure 500 "Internal server error." (some "storage write failed"),
       ⟨1, 1, 1, 1⟩) :=
  ⟨rfl,
   publish_failure_500 wFields (fun _ => .ok "a prompt") (fun _ => .ok [cexBg])
     cexPackshot (fun _ => .error (.otherExc "storage write failed"))
     (fun _ => 0) (fun _ => 0) cexResample rfl rfl rfl rfl
     "a prompt" cexBg "storage write failed" rfl rfl (fun _ => rfl)⟩

/-- C5: when the image model returns zero images, `generate_imagen_background`
raises the distinct empty-generation condition (`IndexError` from
`images[0]`) after a single model invocation — it is not retried, since
only `ServiceUnavailable` triggers retries — and the route maps it through
the generic handler to a request-level 500, not through the
transient-unavailable (503) path. -/
theorem empty_generation_500 (fields : List (String × String))
    (geminiFn : Nat → Except Err String) (imagenFn : Nat → Except Err (List Image))
    (fetch : Except String Image) (store : Image → Except Err String)
    (uG uI : Nat → ℚ) (resample : Image → Nat → Nat → Image)
    (h1 : (fields.map Prod.fst).contains "general_description" = true)
    (h2 : (fields.map Prod.fst).contains "background_description" = true)
    (h3 : (fields.map Prod.fst).contains "copy" = true)
    (h4 : (fields.map Prod.fst).contains "packshot_url" = true)
    (prompt : String)
    (hg : (generate_gemini_prompt geminiFn uG (3 / 2) 5).1 = .ok prompt)
    (hi : imagenFn 1 = .ok ([] : List Image)) :
    generate_imagen_background imagenFn uI (3 / 2) 5 =
      (.error (.indexError "list index out of range"), 1) ∧
    generate_image (some fields) geminiFn imagenFn fetch store uG uI resample =
      (.failure 500 "Internal server error." (some "list index out of range"),
       ⟨(generate_gemini_prompt geminiFn uG (3 / 2) 5).2, 1, 0, 0⟩) := by
  have hr : retry_call imagenFn uI (3 / 2) 5 = (some (.ok []), [], 1) :=
    retryCallGo_ok_step imagenFn uI (3 / 2) 5 1 4 [] hi
  have hbg : generate_imagen_background imagenFn uI (3 / 2) 5 =
      (.error (.indexError "list index out of range"), 1) := by
    simp only [generate_imagen_background, hr]
  refine ⟨hbg, ?_⟩
  simp only [generate_image]
  rw [missingFields_eq_nil _ h1 h2 h3 h4, if_pos rfl, hg]
  dsimp only
  rw [hbg]
  rfl

theorem empty_generation_500_witness :
    ((fun _ => .ok ([] : List Image) : Nat → Except Err (List Image)) 1 = .ok []) ∧
    generate_image (some wFields) (fun _ => .ok "a prompt") (fun _ => .ok [])
      (.ok cexPackshot) (fun _ => .ok "https://storage.googleapis.com/out/img.png")
      (fun _ => 0) (fun _ => 0) cexResample =
      (.failure 500 "Internal server error." (some "list index out of range"),
       ⟨1, 1, 0, 0⟩) :=
  ⟨rfl,
   (empty_generation_500 wFields (fun _ => .ok "a prompt") (fun _ => .ok [])
     (.ok cexPackshot) (fun _ => .ok "https://storage.googleapis.com/out/img.png")
     (fun _ => 0) (fun _ => 0) cexResample rfl rfl rfl rfl "a prompt" rfl rfl).2⟩

/-- C9: whenever a stage before the publisher fails — the retried prompt
synthesis, the retried image generation (including the empty-result case),
or the packshot fetch — the storage upload is never attempted: no partial
artifact is persisted. -/
theorem no_upload_before_publish (payload : Option (List (String × String)))
    (geminiFn : Nat → Except Err String) (imagenFn : Nat → Except Err (List Image))
    (fetch : Except String Image) (store : Image → Except Err String)
    (uG uI : Nat → ℚ) (resample : Image → Nat → Nat → Image)
    (h : (∃ e, (generate_gemini_prompt geminiFn uG (3 / 2) 5).1 = .error e) ∨
         (∃ e, (generate_imagen_background imagenFn uI (3 / 2) 5).1 = .error e) ∨
         (∃ msg, fetch = .error msg)) :
    (generate_image payload geminiFn imagenFn fetch store uG uI resample).2.uploadCalls = 0 := by
  rcases payload with _ | fields
  · rfl
  · simp only [generate_image]
    by_cases hmiss : missingFields (fields.map Prod.fst) = []
    · rw [hmiss, if_pos rfl]
      cases hgg : (generate_gemini_prompt geminiFn uG (3 / 2) 5).1 with
      | error e => rfl
      | ok prompt =>
        cases hbb : (generate_imagen_background imagenFn uI (3 / 2) 5).1 with
        | error e => rfl
        | ok bgImg =>
          cases hff : fetch with
          | error m => rfl
          | ok ps =>
            exfalso
            rcases h with ⟨e, he⟩ | ⟨e, he⟩ | ⟨m, he⟩
            · rw [hgg] at he
              exact Except.noConfusion he
            · rw [hbb] at he
              exact Except.noConfusion he
            · rw [hff] at he
              exact Except.noConfusion he
    · rw [if_neg hmiss]

theorem no_upload_before_publish_witness :
    ((∃ e, (generate_gemini_prompt (fun _ => .error (.serviceUnavailable "503 upstream"))
              (fun _ => 0) (3 / 2) 5).1 = .error e) ∨
     (∃ e, (generate_imagen_background (fun _ => .ok [cexBg]) (fun _ => 0) (3 / 2) 5).1 =
        .error e) ∨
     (∃ msg, (.ok cexPackshot : Except String Image) = .error msg)) ∧
    (generate_image (some wFields) (fun _ => .error (.serviceUnavailable "503 upstream"))
       (fun _ => .ok [cexBg]) (.ok cexPackshot)
       (fun _ => .ok "https://storage.googleapis.com/out/img.png")
       (fun _ => 0) (fun _ => 0) cexResample).2.uploadCalls = 0 := by
  have hdisj : (∃ e, (generate_gemini_prompt
        (fun _ => .error (.serviceUnavailable "503 upstream"))
        (fun _ => 0) (3 / 2) 5).1 = .error e) ∨
      (∃ e, (generate_imagen_background (fun _ => .ok [cexBg]) (fun _ => 0) (3 / 2) 5).1 =
        .error e) ∨
      (∃ msg, (.ok cexPackshot : Except String Image) = .error msg) :=
    Or.inl ⟨.serviceUnavailable "503 upstream", rfl⟩
  exact ⟨hdisj,
    no_upload_before_publish (some wFields)
      (fun _ => .error (.serviceUnavailable "503 upstream")) (fun _ => .ok [cexBg])
      (.ok cexPackshot) (fun _ => .ok "https://storage.googleapis.com/out/img.png")
      (fun _ => 0) (fun _ => 0) cexResample hdisj⟩

def c7Fields : List (String × String) :=
  [("general_description", "modern minimalist"),
   ("background_description", "marble countertop"),
   ("copy", ""),
   ("packshot_url", "https://example.com/bottle.png")]

/-- C7 counterexample: a request body whose four required fields are all
present but whose `copy` field is the empty string is NOT rejected by
validation — the pipeline runs (the LLM oracle is invoked) and, with all
collaborators succeeding, the response is 200, not 400: the route checks
only key presence (main.py lines 201-203), never value emptiness or URL
syntax. -/
theorem empty_field_reaches_pipeline_cex :
    (generate_image (some c7Fields) (fun _ => .ok "a prompt") (fun _ => .ok [cexBg])
       (.ok cexPackshot) (fun _ => .ok "https://storage.googleapis.com/out/img.png")
       (fun _ => 0) (fun _ => 0) cexResample).1 =
      .success "https://storage.googleapis.com/out/img.png" "a prompt" ∧
    (generate_image (some c7Fields) (fun _ => .ok "a prompt") (fun _ => .ok [cexBg])
       (.ok cexPackshot) (fun _ => .ok "https://storage.googleapis.com/out/img.png")
       (fun _ => 0) (fun _ => 0) cexResample).1.status ≠ 400 ∧
    (generate_image (some c7Fields) (fun _ => .ok "a prompt") (fun _ => .ok [cexBg])
       (.ok cexPackshot) (fun _ => .ok "https://storage.googleapis.com/out/img.png")
       (fun _ => 0) (fun _ => 0) cexResample).2.geminiCalls = 1 :=
  ⟨rfl, by decide, rfl⟩

/-- C7 (amended): validation checks only the presence of the four required
keys.  Any body containing all four keys — empty-string values and
syntactically invalid URLs included — passes validation and the pipeline
starts (the LLM is invoked at least once); a packshot URL whose fetch
fails is rejected with 400 "Unable to download packshot" only at the fetch
stage, after the LLM and image-generation stages have run. -/
theorem validation_presence_only (fields : List (String × String))
    (geminiFn : Nat → Except Err String) (imagenFn : Nat → Except Err (List Image))
    (fetch : Except String Image) (store : Image → Except Err String)
    (uG uI : Nat → ℚ) (resample : Image → Nat → Nat → Image)
    (h1 : (fields.map Prod.fst).contains "general_description" = true)
    (h2 : (fields.map Prod.fst).contains "background_description" = true)
    (h3 : (fields.map Prod.fst).contains "copy" = true)
    (h4 : (fields.map Prod.fst).contains "packshot_url" = true) :
    1 ≤ (generate_image (some fields) geminiFn imagenFn fetch store uG uI
          resample).2.geminiCalls ∧
    (∀ prompt bgImg fmsg,
      (generate_gemini_prompt geminiFn uG (3 / 2) 5).1 = .ok prompt →
      (generate_imagen_background imagenFn uI (3 / 2) 5).1 = .ok bgImg →
      fetch = .error fmsg →
      (generate_image (some fields) geminiFn imagenFn fetch store uG uI resample).1 =
        .failure 400 "Unable to download packshot" none) := by
  have hge : 1 ≤ (generate_gemini_prompt geminiFn uG (3 / 2) 5).2 :=
    retry_call_calls_pos geminiFn uG (3 / 2) 5 (by norm_num)
  constructor
  · simp only [generate_image]
    rw [missingFields_eq_nil _ h1 h2 h3 h4, if_pos rfl]
    cases hgg : (generate_gemini_prompt geminiFn uG (3 / 2) 5).1 with
    | error e => exact hge
    | ok prompt =>
      dsimp only
      cases hbb : (generate_imagen_background imagenFn uI (3 / 2) 5).1 with
      | error e => exact hge
      | ok bgImg =>
        dsimp only
        cases fetch with
        | error m => exact hge
        | ok ps =>
          dsimp only [download_packshot, upload_to_gcs]
          cases hss : store (composite_images resample bgImg ps) with
          | error e => exact hge
          | ok url => exact hge
  · intro prompt bgImg fmsg hg hb hf
    subst hf
    simp only [generate_image, download_packshot]
    rw [missingFields_eq_nil _ h1 h2 h3 h4, if_pos rfl, hg]
    dsimp only
    rw [hb]
    rfl

theorem validation_presence_only_witness :
    (c7Fields.map Prod.fst).contains "general_description" = true ∧
    1 ≤ (generate_image (some c7Fields) (fun _ => .ok "a prompt") (fun _ => .ok [cexBg])
          (.error "connection refused") (fun _ => .ok "unused")
          (fun _ => 0) (fun _ => 0) cexResample).2.geminiCalls ∧
    (generate_image (some c7Fields) (fun _ => .ok "a prompt") (fun _ => .ok [cexBg])
       (.error "connection refused") (fun _ => .ok "unused")
       (fun _ => 0) (fun _ => 0) cexResample).1 =
      .failure 400 "Unable to download packshot" none := by
  have h := validation_presence_only c7Fields (fun _ => .ok "a prompt")
    (fun _ => .ok [cexBg]) (.error "connection refused") (fun _ => .ok "unused")
    (fun _ => 0) (fun _ => 0) cexResample rfl rfl rfl rfl
  exact ⟨rfl, h.1, h.2 "a prompt" cexBg "connection refused" rfl rfl rfl⟩
